import Mathlib

/-!
# Verification of the fiscal_api NF-e core

A shallow embedding of the core of the `fiscal_api` repository
(`app/services/xml_processor.py`, `app/services/government_api.py`,
`app/models/fiscal.py`) together with proofs about the claims of its
specification.

Modelling conventions:

* Python `decimal.Decimal` values (exact decimal arithmetic) are modelled as `ℚ`.
* An XML string is modelled as the element tree it denotes (`XmlElem`):
  `lxml.etree.fromstring` is the identity on this representation and
  `lxml.etree.tostring(..., pretty_print=True)` re-renders the same tree,
  changing only inter-element whitespace, so tree equality is the meaning of
  "equal up to incidental whitespace/formatting".
* `xml_processor.py` defines `XMLParser` and `XMLGenerator` twice; Python
  executes the module top to bottom, so the second definitions (lines 985-1191
  and 1194-1281) shadow the first and are the ones every caller (including
  `XMLProcessor`, whose `__init__` resolves the names at call time) actually
  uses.  The embedding below therefore follows the second definitions; the
  first definitions are dead code.
* `datetime` parsing (`fromisoformat` / `strptime`) is abstracted: the issue
  date is kept as the (normalized) source text.  No claim depends on date
  semantics, and the abstraction only enlarges the set of accepted documents.
* Python `str.isdigit` is modelled on the ASCII decimal digits, the only
  digits fiscal fields carry.
-/

namespace FiscalApi

/-- Python `decimal.Decimal` fiscal values: exact decimal arithmetic. -/
abbrev Dec := ℚ

/-- ASCII decimal digit test (model of Python `str.isdigit` per character). -/
def isDigitChar (c : Char) : Bool := '0' ≤ c && c ≤ '9'

/-- Numeric value of an ASCII digit character (`int(ch)` on a digit). -/
def digitVal (c : Char) : Nat := c.toNat - 48

/-- All characters are ASCII digits. -/
def isDigits (l : List Char) : Bool := l.all isDigitChar

/-- Python `s.isdigit()`: non-empty and all digits. -/
def strIsDigit (s : String) : Bool := !s.data.isEmpty && isDigits s.data

/-- Natural number denoted by a digit string. -/
def natOfDigits (l : List Char) : Nat := l.foldl (fun n c => 10 * n + digitVal c) 0

/-- Python `int(text)` on the strings that occur in NF-e fields:
    an optional sign followed by at least one ASCII digit. -/
def parseInt? (s : String) : Option Int :=
  match s.data with
  | [] => none
  | '-' :: ds => if !ds.isEmpty && isDigits ds then some (-(natOfDigits ds : Int)) else none
  | '+' :: ds => if !ds.isEmpty && isDigits ds then some (natOfDigits ds : Int) else none
  | ds => if isDigits ds then some (natOfDigits ds : Int) else none

/-- Python `Decimal(text)` on plain decimal literals `[sign] digits [. digits]`
    (the only shapes NF-e numeric fields and the tax API carry):
    `none` models a raised `InvalidOperation`/`TypeError`. -/
def parseDec? (s : String) : Option Dec :=
  let core : List Char → Option Dec := fun l =>
    match l.splitOn '.' with
    | [ip] => if !ip.isEmpty && isDigits ip then some ((natOfDigits ip : ℚ)) else none
    | [ip, fp] =>
        if (!ip.isEmpty || !fp.isEmpty) && isDigits ip && isDigits fp then
          some ((natOfDigits ip : ℚ) + (natOfDigits fp : ℚ) / (10 : ℚ) ^ fp.length)
        else none
    | _ => none
  match s.data with
  | '-' :: ds => (core ds).map (fun q => -q)
  | '+' :: ds => core ds
  | ds => core ds

/-- Whether `l` starts with the pattern `p`. -/
def listStartsWith : List Char → List Char → Bool
  | _, [] => true
  | [], _ :: _ => false
  | c :: cs, p :: ps => c = p && listStartsWith cs ps

/-- Left-to-right non-overlapping replacement of the non-empty pattern
    `p :: ps` by `rep`, with explicit fuel so the definition is structural
    (the fuel is the list length, which each step strictly decreases, so it
    is never exhausted). -/
def replaceFuel (p : Char) (ps rep : List Char) : Nat → List Char → List Char
  | 0, l => l
  | _ + 1, [] => []
  | fuel + 1, c :: cs =>
      if listStartsWith (c :: cs) (p :: ps) then
        rep ++ replaceFuel p ps rep fuel (cs.drop ps.length)
      else c :: replaceFuel p ps rep fuel cs

/-- Python `s.replace(pat, rep)`: every non-overlapping occurrence, left to
    right. -/
def strReplace (s pat rep : String) : String :=
  match pat.data with
  | [] => s
  | p :: ps => ⟨replaceFuel p ps rep.data s.data.length s.data⟩

/-- Rounding to 2 decimal places (used only to state the spec's
    `round(B * R / 100, 2)`; the source never rounds). -/
def round2 (q : Dec) : Dec := ((round (q * 100) : ℤ) : ℚ) / 100

/-- A string of the shape `digits.dd`: a numeric value serialized with exactly
    two decimal places (the shape `f"{value:.2f}"` produces). -/
def isTwoDecimalString (s : String) : Bool :=
  match s.data.splitOn '.' with
  | [ip, fp] => !ip.isEmpty && isDigits ip && fp.length = 2 && isDigits fp
  | _ => false

mutual
/-- An XML element: tag (namespace-local name), attributes in document order,
    optional text content, children in document order.  The children are a
    mutually inductive forest so that tree recursion is structural (and hence
    evaluates by kernel reduction). -/
inductive XmlElem : Type where
  | mk (tag : String) (attrs : List (String × String)) (text : Option String)
      (children : XmlForest)

/-- A list of XML elements, as a mutual inductive. -/
inductive XmlForest : Type where
  | nil
  | cons (head : XmlElem) (tail : XmlForest)
end

instance : Inhabited XmlElem := ⟨.mk "" [] none .nil⟩

def XmlElem.tag : XmlElem → String
  | .mk t _ _ _ => t

def XmlElem.attrs : XmlElem → List (String × String)
  | .mk _ a _ _ => a

def XmlElem.text : XmlElem → Option String
  | .mk _ _ x _ => x

def XmlElem.children : XmlElem → XmlForest
  | .mk _ _ _ c => c

/-- The forest holding the given elements, in order. -/
def forestOf : List XmlElem → XmlForest
  | [] => .nil
  | c :: cs => .cons c (forestOf cs)

/-- The elements of a forest, in order. -/
def XmlForest.toList : XmlForest → List XmlElem
  | .nil => []
  | .cons c cs => c :: cs.toList

/-- `elem.get(key)`: attribute lookup. -/
def getAttr (e : XmlElem) (k : String) : Option String :=
  (e.attrs.find? (fun p => p.1 = k)).map (·.2)

/-- `elem.find('nfe:tag')`: first direct child with the given tag. -/
def findChild (e : XmlElem) (tg : String) : Option XmlElem :=
  e.children.toList.find? (fun c => c.tag = tg)

mutual
/-- All strict descendants of an element, in document order. -/
def descendants : XmlElem → List XmlElem
  | .mk _ _ _ cs => descendantsF cs

/-- Concatenation of `c :: descendants c` over a forest. -/
def descendantsF : XmlForest → List XmlElem
  | .nil => []
  | .cons c cs => c :: (descendants c ++ descendantsF cs)
end

/-- `root.findall('.//nfe:tag')`: all descendants with the tag, document order. -/
def findAllDesc (e : XmlElem) (tg : String) : List XmlElem :=
  (descendants e).filter (fun c => c.tag = tg)

/-- `root.find('.//nfe:tag')`: first descendant with the tag. -/
def findDesc (e : XmlElem) (tg : String) : Option XmlElem :=
  (findAllDesc e tg).head?

/-- `root.find('.//nfe:total/nfe:ICMSTot')`: first `ICMSTot` child of a
    `total` descendant. -/
def findIcmsTot (e : XmlElem) : Option XmlElem :=
  ((findAllDesc e "total").filterMap (fun t => findChild t "ICMSTot")).head?

/-! ## XMLValidator (xml_processor.py 32-153) -/

/-- The fiscal-document namespace. -/
def nfeNamespace : String := "http://www.portalfiscal.inf.br/nfe"

/-- `XMLValidator.validate_nfe_structure` (xml_processor.py 40-84): namespace
    declared, the six mandatory subtrees present, layout version `4.00`.
    The `'portalfiscal.inf.br/nfe' in str(root.nsmap)` test is modelled as the
    root carrying an `xmlns` declaration equal to the NF-e namespace (the
    embedding identifies elements by their namespace-local tag). -/
def validate_nfe_structure (root : XmlElem) : Bool :=
  (getAttr root "xmlns" = some nfeNamespace : Bool) &&
  (findDesc root "infNFe").isSome &&
  (findDesc root "ide").isSome &&
  (findDesc root "emit").isSome &&
  (findDesc root "dest").isSome &&
  (findDesc root "det").isSome &&
  (findDesc root "total").isSome &&
  (match findDesc root "infNFe" with
   | some infNFe => (getAttr infNFe "versao" = some "4.00" : Bool)
   | none => false)

/-- Valid UF (state) codes for the first two key digits (xml_processor.py 108). -/
def valid_ufs : List Nat :=
  [11, 12, 13, 14, 15, 16, 17, 21, 22, 23, 24, 25, 26, 27, 28, 29,
   31, 32, 33, 35, 41, 42, 43, 50, 51, 52, 53]

/-- `XMLValidator.validate_document_key` (xml_processor.py 86-119). -/
def validate_document_key (key : String) : Bool :=
  let l := key.data
  if l.length ≠ 44 then false
  else if !strIsDigit key then false
  else
    let uf := natOfDigits (l.take 2)
    if !valid_ufs.contains uf then false
    else
      let modelo := (l.drop 20).take 2
      modelo = ['5', '5'] || modelo = ['6', '5']

/-- The CNPJ first check-digit weight vector (xml_processor.py 140). -/
def weights1 : List Nat := [5, 4, 3, 2, 9, 8, 7, 6, 5, 4, 3, 2]

/-- The CNPJ second check-digit weight vector (xml_processor.py 147). -/
def weights2 : List Nat := [6, 5, 4, 3, 2, 9, 8, 7, 6, 5, 4, 3, 2]

/-- `digit = 11 - (sum % 11); if digit >= 10: digit = 0`
    (xml_processor.py 142-144 and 149-151). -/
def cnpjCheckDigit (s : Nat) : Nat :=
  if 11 - s % 11 ≥ 10 then 0 else 11 - s % 11

/-- `XMLValidator.validate_cnpj` (xml_processor.py 121-153).  The final
    comparison `cnpj[-2:] == f"{digit1}{digit2}"` renders each check digit
    (always < 10) as its single ASCII digit character. -/
def validate_cnpj (cnpj : String) : Bool :=
  let l := cnpj.data
  if !(l.length = 14 && strIsDigit cnpj) then false
  else if l = List.replicate 14 (l.headD ' ') then false
  else
    let d : Nat → Nat := fun i => digitVal (l.getD i '0')
    let sum1 := ((List.range 12).map (fun i => d i * weights1.getD i 0)).sum
    let digit1 := cnpjCheckDigit sum1
    let sum2 := ((List.range 13).map (fun i => d i * weights2.getD i 0)).sum
    let digit2 := cnpjCheckDigit sum2
    l.drop 12 = [Char.ofNat (48 + digit1), Char.ofNat (48 + digit2)]

/-! ## Data model (models/fiscal.py)

`TaxDetails` carries only IBS, CBS and Selective-Tax triples plus
`total_federal_taxes` — the model declares no ICMS/PIS/COFINS fields.
Construction functions (`mk...`) model pydantic validation: field constraints
(`ge`/`le`/pattern) followed by the declared V1-style field validators. -/

/-- The `info` object a pydantic validator may receive via `**kwargs`. -/
structure ValidationInfo where
  field_name : String
deriving Repr, DecidableEq

/-- `TaxDetails.calculate_tax_values` (fiscal.py 103-128), a V1-style pydantic
    validator for `ibs_value`, `cbs_value` and `selective_tax_value`.
    `v` is the already-range-checked field value (never `None`: every field has
    a `Decimal('0')` default), `values` the previously validated fields, and
    `kwargs` the validator's `**kwargs`. -/
def calculate_tax_values (v : Dec) (values : List (String × Dec))
    (kwargs : List (String × ValidationInfo)) : Dec :=
  let info := (kwargs.find? (fun p => p.1 = "info")).map (·.2)
  let field_name := match info with
    | some i => i.field_name
    | none => ""
  if field_name = "" then v
  else if field_name = "ibs_value" then
    lookupDec values "ibs_base" * lookupDec values "ibs_rate" / 100
  else if field_name = "cbs_value" then
    lookupDec values "cbs_base" * lookupDec values "cbs_rate" / 100
  else if field_name = "selective_tax_value" then
    lookupDec values "selective_tax_base" * lookupDec values "selective_tax_rate" / 100
  else v
where
  /-- `values.get(key, Decimal('0'))`. -/
  lookupDec (values : List (String × Dec)) (k : String) : Dec :=
    ((values.find? (fun p => p.1 = k)).map (·.2)).getD 0

/-- The pydantic-v2 compatibility wrapper for a V1 validator whose signature is
    `(cls, v, values, **kwargs)`: `pydantic/_internal/_decorators_v1.py`
    (`make_generic_v1_field_validator`, `wrapper1`) invokes it as
    `validator(value, values=info.data)` — with an empty `**kwargs`, so the
    validator's `kwargs.get('info')` is always `None`. -/
def calculate_tax_values_v2 (v : Dec) (values : List (String × Dec)) : Dec :=
  calculate_tax_values v values []

structure TaxDetails where
  ibs_base : Dec
  ibs_rate : Dec
  ibs_value : Dec
  cbs_base : Dec
  cbs_rate : Dec
  cbs_value : Dec
  selective_tax_base : Dec
  selective_tax_rate : Dec
  selective_tax_value : Dec
  total_federal_taxes : Dec
deriving Repr, DecidableEq

/-- `TaxDetails()` with every field at its `Decimal('0')` default. -/
def TaxDetails.zero : TaxDetails := ⟨0, 0, 0, 0, 0, 0, 0, 0, 0, 0⟩

/-- pydantic construction of `TaxDetails` (fiscal.py 39-128): range constraints
    (`ge=0` on bases/values/total, `0 ≤ rate ≤ 100`), then the
    `calculate_tax_values` validator on the three `*_value` fields, invoked
    through the pydantic-v2 compatibility wrapper with the previously validated
    fields as `values`. -/
def mkTaxDetails (ibs_base ibs_rate ibs_value cbs_base cbs_rate cbs_value
    selective_tax_base selective_tax_rate selective_tax_value
    total_federal_taxes : Dec) : Except String TaxDetails :=
  if 0 ≤ ibs_base ∧ 0 ≤ ibs_rate ∧ ibs_rate ≤ 100 ∧ 0 ≤ ibs_value ∧
      0 ≤ cbs_base ∧ 0 ≤ cbs_rate ∧ cbs_rate ≤ 100 ∧ 0 ≤ cbs_value ∧
      0 ≤ selective_tax_base ∧ 0 ≤ selective_tax_rate ∧
      selective_tax_rate ≤ 100 ∧ 0 ≤ selective_tax_value ∧
      0 ≤ total_federal_taxes then
    let ibs_value' := calculate_tax_values_v2 ibs_value
      [("ibs_base", ibs_base), ("ibs_rate", ibs_rate)]
    let cbs_value' := calculate_tax_values_v2 cbs_value
      [("ibs_base", ibs_base), ("ibs_rate", ibs_rate), ("ibs_value", ibs_value'),
       ("cbs_base", cbs_base), ("cbs_rate", cbs_rate)]
    let selective_tax_value' := calculate_tax_values_v2 selective_tax_value
      [("ibs_base", ibs_base), ("ibs_rate", ibs_rate), ("ibs_value", ibs_value'),
       ("cbs_base", cbs_base), ("cbs_rate", cbs_rate), ("cbs_value", cbs_value'),
       ("selective_tax_base", selective_tax_base),
       ("selective_tax_rate", selective_tax_rate)]
    .ok ⟨ibs_base, ibs_rate, ibs_value', cbs_base, cbs_rate, cbs_value',
      selective_tax_base, selective_tax_rate, selective_tax_value',
      total_federal_taxes⟩
  else .error "TaxDetails validation error"

/-- `s` matches the pydantic pattern `^\d{n}$`. -/
def matchesDigits (n : Nat) (s : String) : Bool :=
  s.data.length = n && isDigits s.data

/-- `s` matches the pydantic pattern `^[A-Z]{2}$`. -/
def matchesUF (s : String) : Bool :=
  s.data.length = 2 && s.data.all (fun c => 'A' ≤ c && c ≤ 'Z')

structure CompanyInfo where
  cnpj : String
  trade_name : Option String
  address : String
  city : String
  state : String
  zip_code : String
  phone : Option String
  email : Option String
deriving Repr, DecidableEq

/-- pydantic construction of `CompanyInfo` (fiscal.py 146-156): `cnpj` must
    match `^\d{14}$`, `state` must match `^[A-Z]{2}$`, `zip_code` must match
    `^\d{8}$`. -/
def mkCompanyInfo (cnpj : String) (trade_name : Option String)
    (address city state zip_code : String)
    (phone email : Option String) : Except String CompanyInfo :=
  if matchesDigits 14 cnpj && matchesUF state && matchesDigits 8 zip_code then
    .ok ⟨cnpj, trade_name, address, city, state, zip_code, phone, email⟩
  else .error "CompanyInfo validation error"

structure ProductItem where
  item_number : Int
  product_code : String
  product_name : String
  ncm : String
  cfop : String
  unit : String
  quantity : Dec
  unit_value : Dec
  total_value : Dec
  tax_details : TaxDetails
deriving Repr, DecidableEq

/-- pydantic construction of `ProductItem` (fiscal.py 131-143): `ncm` matches
    `^\d{8}$`, `cfop` matches `^\d{4}$`, `quantity > 0`, `unit_value ≥ 0`,
    `total_value ≥ 0`. -/
def mkProductItem (item_number : Int) (product_code product_name ncm cfop
    unit : String) (quantity unit_value total_value : Dec)
    (tax_details : TaxDetails) : Except String ProductItem :=
  if matchesDigits 8 ncm && matchesDigits 4 cfop && decide (0 < quantity) &&
      decide (0 ≤ unit_value) && decide (0 ≤ total_value) then
    .ok ⟨item_number, product_code, product_name, ncm, cfop, unit,
      quantity, unit_value, total_value, tax_details⟩
  else .error "ProductItem validation error"

structure NFEDocument where
  document_key : String
  series : Int
  number : Int
  issue_date : String
  emitter : CompanyInfo
  recipient : CompanyInfo
  items : List ProductItem
  total_products : Dec
  total_services : Dec
  total_document : Dec
  tax_details : TaxDetails
  original_xml : XmlElem
  updated_xml : Option XmlElem

/-- pydantic construction of `NFEDocument` (fiscal.py 159-208):
    `document_key` matches `^\d{44}$`, the three totals are `ge=0`, and the
    `validate_total_document` validator raises unless
    `|total_document - (total_products + total_services)| ≤ 0.01`. -/
def mkNFEDocument (document_key : String) (series number : Int)
    (issue_date : String) (emitter recipient : CompanyInfo)
    (items : List ProductItem) (total_products total_services total_document : Dec)
    (tax_details : TaxDetails) (original_xml : XmlElem) :
    Except String NFEDocument :=
  if matchesDigits 44 document_key && decide (0 ≤ total_products) &&
      decide (0 ≤ total_services) && decide (0 ≤ total_document) &&
      decide (|total_document - (total_products + total_services)| ≤ 1 / 100) then
    .ok ⟨document_key, series, number, issue_date, emitter, recipient, items,
      total_products, total_services, total_document, tax_details,
      original_xml, none⟩
  else .error "NFEDocument validation error"

/-! ## XMLParser (second, effective definition: xml_processor.py 985-1191)

Every exception escaping a parsing step is caught by `parse_nfe_document`'s
outer handler and re-raised as `XMLProcessingError`; the embedding therefore
uses `Except String` throughout, with the message documenting which Python
exception the error models. -/

/-- Turn an optional value into a parse step that raises when absent. -/
def oEx {α : Type} (o : Option α) (msg : String) : Except String α :=
  match o with
  | some a => .ok a
  | none => .error msg

/-- A `if not check: raise` guard. -/
def ensure (b : Bool) (msg : String) : Except String Unit :=
  if b then .ok () else .error msg

instance {ε α : Type} [DecidableEq ε] [DecidableEq α] :
    DecidableEq (Except ε α) := fun a b =>
  match a, b with
  | .ok x, .ok y =>
      if h : x = y then .isTrue (by rw [h])
      else .isFalse (by intro hc; cases hc; exact h rfl)
  | .error e, .error f =>
      if h : e = f then .isTrue (by rw [h])
      else .isFalse (by intro hc; cases hc; exact h rfl)
  | .ok _, .error _ => .isFalse (by intro hc; cases hc)
  | .error _, .ok _ => .isFalse (by intro hc; cases hc)

/-- `parent.find(tag).text` used as a required string: raises
    (`AttributeError` on a missing element, or a downstream pydantic
    `ValidationError` on a `None` text) unless the element exists with text. -/
def childText (parent : XmlElem) (tg : String) : Except String String := do
  let el ← oEx (findChild parent tg) "AttributeError: find returned None"
  oEx el.text "missing text"

/-- `Decimal(parent.find(tag).text)` used as a required decimal. -/
def childDec (parent : XmlElem) (tg : String) : Except String Dec := do
  let t ← childText parent tg
  oEx (parseDec? t) "InvalidOperation: Decimal()"

/-- `XMLParser._get_optional_text` (second definition, xml_processor.py
    1188-1191): `elem.text if elem is not None else None`. -/
def get_optional_text (parent : XmlElem) (tg : String) : Option String :=
  (findChild parent tg).bind (·.text)

/-- `XMLParser._extract_identification` (second definition, xml_processor.py
    1063-1085).  The issue date is the `dhEmi` text with a literal `Z`
    normalized to `+00:00` (`datetime.fromisoformat`), or the legacy `dEmi`
    date text; `datetime` values are abstracted as their source text. -/
def extract_identification (root : XmlElem) :
    Except String (Int × Int × String) := do
  let ide ← oEx (findDesc root "ide") "Elemento ide não encontrado"
  let issue_date ←
    match findChild ide "dhEmi" with
    | some dh => do
        let t ← oEx dh.text "AttributeError: None.replace"
        Except.ok (strReplace t "Z" "+00:00")
    | none =>
        match findChild ide "dEmi" with
        | some d => do
            let t ← oEx d.text "TypeError: strptime(None)"
            Except.ok t
        | none => Except.error "Data de emissão não encontrada"
  let serieTxt ← childText ide "serie"
  let series ← oEx (parseInt? serieTxt) "ValueError: int()"
  let numTxt ← childText ide "nNF"
  let number ← oEx (parseInt? numTxt) "ValueError: int()"
  Except.ok (series, number, issue_date)

/-- Render an optional text the way a Python f-string renders it
    (`None` prints as `"None"`). -/
def fstr (o : Option String) : String :=
  match o with
  | some t => t
  | none => "None"

/-- `XMLParser._extract_company_info` (second definition, xml_processor.py
    1087-1116).  `which` is `"emit"` or `"dest"` (the source selects
    `enderEmit` when `'emit' in xpath`, else `enderDest`, falling back to
    `endereco`); a missing `CNPJ` element raises before anything else is
    read.  The unused `company_name` keyword is dropped by pydantic
    (`CompanyInfo` declares no such field; extra kwargs are ignored). -/
def extract_company_info (root : XmlElem) (which : String) :
    Except String CompanyInfo := do
  let company ← oEx (findDesc root which) "Elemento não encontrado"
  let cnpjEl ← oEx (findChild company "CNPJ") "CNPJ não encontrado"
  let ender ← oEx ((findChild company
      (if which = "emit" then "enderEmit" else "enderDest")).orElse
      (fun _ => findChild company "endereco")) "Endereço não encontrado"
  let cnpj ← oEx cnpjEl.text "ValidationError: cnpj None"
  let _name ← childText company "xNome"
  let xLgr ← oEx (findChild ender "xLgr") "AttributeError: find returned None"
  let nro ← oEx (findChild ender "nro") "AttributeError: find returned None"
  let address := fstr xLgr.text ++ ", " ++ fstr nro.text
  let city ← childText ender "xMun"
  let state ← childText ender "UF"
  let zip_code ← childText ender "CEP"
  mkCompanyInfo cnpj (get_optional_text company "xFant") address city state
    zip_code (get_optional_text ender "fone") (get_optional_text company "email")

/-- `XMLParser._extract_item_tax_details` (second definition, xml_processor.py
    1160-1164): "Por enquanto, retorna valores zerados" — always the all-zero
    `TaxDetails()`. -/
def extract_item_tax_details (_det : XmlElem) : TaxDetails := TaxDetails.zero

/-- The body of `XMLParser._extract_items`' loop (second definition,
    xml_processor.py 1118-1158) over the remaining `det` elements.  For each
    `det`: `int(det.get('nItem'))` (raising on a missing or non-numeric
    attribute), then `det.find('nfe:prod')`; a `det` without a `prod` child is
    skipped by a bare `continue` — the branch contains no logger call. -/
def extract_items_aux : List XmlElem → Except String (List ProductItem)
  | [] => .ok []
  | det :: rest => do
      let nItemTxt ← oEx (getAttr det "nItem") "TypeError: int(None)"
      let item_num ← oEx (parseInt? nItemTxt) "ValueError: int()"
      match findChild det "prod" with
      | none => extract_items_aux rest
      | some prod => do
          let product_code ← childText prod "cProd"
          let product_name ← childText prod "xProd"
          let ncm ← childText prod "NCM"
          let cfop ← childText prod "CFOP"
          let unit ← childText prod "uCom"
          let quantity ← childDec prod "qCom"
          let unit_value ← childDec prod "vUnCom"
          let total_value ← childDec prod "vProd"
          let tax_details := extract_item_tax_details det
          let item ← mkProductItem item_num product_code product_name ncm cfop
            unit quantity unit_value total_value tax_details
          let items ← extract_items_aux rest
          Except.ok (item :: items)

/-- `XMLParser._extract_items` (second definition) over all `det` descendants. -/
def extract_items (root : XmlElem) : Except String (List ProductItem) :=
  extract_items_aux (findAllDesc root "det")

/-- Warning log events emitted by `XMLParser._extract_items` (second
    definition): the skip branch for a `det` without a `prod` child is a bare
    `continue`, and no other statement of the function logs a warning, so the
    function emits none for any input. -/
def extract_items_warnings (_dets : List XmlElem) : List String := []

/-- Warning log events emitted while parsing a document: only
    `_extract_items` could emit item warnings (the remaining calls log solely
    success/error events). -/
def parse_warnings (root : XmlElem) : List String :=
  extract_items_warnings (findAllDesc root "det")

/-- `XMLParser._extract_totals` (second definition, xml_processor.py
    1166-1180): `vProd`, `vServ` and `vNF` under `ICMSTot`, each defaulting to
    `Decimal('0')` when the element is absent. -/
def extract_totals (root : XmlElem) : Except String (Dec × Dec × Dec) := do
  let tot ← oEx (findIcmsTot root) "Totais não encontrados"
  let products ← match findChild tot "vProd" with
    | some el => do
        let t ← oEx el.text "TypeError: Decimal(None)"
        oEx (parseDec? t) "InvalidOperation: Decimal()"
    | none => Except.ok 0
  let services ← match findChild tot "vServ" with
    | some el => do
        let t ← oEx el.text "TypeError: Decimal(None)"
        oEx (parseDec? t) "InvalidOperation: Decimal()"
    | none => Except.ok 0
  let total ← match findChild tot "vNF" with
    | some el => do
        let t ← oEx el.text "TypeError: Decimal(None)"
        oEx (parseDec? t) "InvalidOperation: Decimal()"
    | none => Except.ok 0
  Except.ok (products, services, total)

/-- `XMLParser._extract_tax_details` (second definition, xml_processor.py
    1182-1186): "Por enquanto, retorna valores zerados" — always `TaxDetails()`. -/
def extract_tax_details (_root : XmlElem) : TaxDetails := TaxDetails.zero

/-- `XMLParser.parse_nfe_document` (second definition, xml_processor.py
    993-1061).  The outer `except` re-raises every failure as
    `XMLProcessingError`; the input XML string is modelled by its element
    tree `t`, which the resulting document retains as `original_xml`. -/
def parse_nfe_document (t : XmlElem) : Except String NFEDocument := do
  let _ ← ensure (validate_nfe_structure t) "Estrutura XML inválida para NF-e"
  let infNFe ← oEx (findDesc t "infNFe") "Elemento infNFe não encontrado"
  let document_key := strReplace ((getAttr infNFe "Id").getD "") "NFe" ""
  let _ ← ensure (validate_document_key document_key) "Chave de documento inválida"
  let idd ← extract_identification t
  let emitter ← extract_company_info t "emit"
  let recipient ← extract_company_info t "dest"
  let items ← extract_items t
  let totals ← extract_totals t
  let tax_details := extract_tax_details t
  mkNFEDocument document_key idd.1 idd.2.1 idd.2.2 emitter recipient items
    totals.1 totals.2.1 totals.2.2 tax_details t

/-! ## XMLGenerator (second, effective definition: xml_processor.py 1194-1281)

Both update helpers carry a `TODO: Implementar atualização real` comment and
only emit debug logs; neither touches the tree.  The embedding returns the
debug-log events explicitly so that "what the function does" is fully visible. -/

/-- The loop body of `XMLGenerator._update_items_taxes` (second definition,
    xml_processor.py 1238-1256) over the remaining `det` elements: reads
    `int(det.get('nItem'))` (which can raise), looks up the matching
    `ProductItem`, and — matching item or not — modifies nothing; a match only
    produces an `updating_item_taxes` debug log. -/
def update_items_taxes_aux (items : List ProductItem) :
    List XmlElem → Except String (List String)
  | [] => .ok []
  | det :: rest => do
      let nItemTxt ← oEx (getAttr det "nItem") "TypeError: int(None)"
      let item_num ← oEx (parseInt? nItemTxt) "ValueError: int()"
      let logs ← update_items_taxes_aux items rest
      match items.find? (fun i => i.item_number = item_num) with
      | none => Except.ok logs
      | some _ => Except.ok ("updating_item_taxes" :: logs)

/-- `XMLGenerator._update_items_taxes` (second definition): iterates the `det`
    descendants; returns the debug logs.  The tree is never modified. -/
def update_items_taxes (root : XmlElem) (items : List ProductItem) :
    Except String (List String) :=
  update_items_taxes_aux items (findAllDesc root "det")

/-- `XMLGenerator._update_document_totals` (second definition, xml_processor.py
    1258-1270): returns early when `ICMSTot` is absent, otherwise only emits an
    `updating_document_totals` debug log.  The tree is never modified. -/
def update_document_totals (root : XmlElem) (_doc : NFEDocument) : List String :=
  match findIcmsTot root with
  | none => []
  | some _ => ["updating_document_totals"]

/-- `XMLGenerator.update_nfe_xml` (second definition, xml_processor.py
    1202-1236): re-parses `document.original_xml`, runs the two (no-op) update
    helpers, and serializes the tree with `pretty_print=True`.  The returned
    value is the element tree the output string denotes; pretty-printing
    changes only inter-element whitespace. -/
def update_nfe_xml (doc : NFEDocument) : Except String XmlElem := do
  let root := doc.original_xml
  let _logs ← update_items_taxes root doc.items
  let _logs2 := update_document_totals root doc
  Except.ok root

/-! ## XMLProcessor (xml_processor.py 835-982) -/

/-- `XMLProcessor.process_nfe_document` (xml_processor.py 915-965): parses the
    document, keeps the parsed tax values ("TODO: Integrar com
    TaxCalculatorService ... manter valores originais" — no call into the
    government-API client occurs), regenerates the XML and attaches it.
    Timestamps (`updated_at`) are abstracted away. -/
def process_nfe_document (xml : XmlElem) : Except String NFEDocument := do
  let document ← parse_nfe_document xml
  let updated ← update_nfe_xml document
  Except.ok { document with updated_xml := some updated }

/-! ## GovernmentAPIClient (government_api.py)

The external service is modelled as a function from the attempt index to the
outcome of that HTTP request. -/

/-- The body of an HTTP response: `malformed` models a body on which
    `response.json()` raises; otherwise the decoded JSON object's
    string-valued fields. -/
inductive Body
  | malformed
  | fields (kvs : List (String × String))
deriving Repr, DecidableEq

/-- The outcome of one `self._client.request(...)` call. -/
inductive ReqOutcome
  | response (status : Nat) (body : Body)
  | requestError
  | timeoutError
deriving Repr, DecidableEq

/-- A failure recorded in `last_exception`. -/
inductive Failure
  | httpStatus (status : Nat) (body : Body)
  | requestError
  | timeoutError
deriving Repr, DecidableEq

/-- How `_make_request_with_retry` leaves its loop: a returned response, a
    re-raised `httpx.HTTPStatusError` (4xx other than 429), or the final
    `GovernmentAPIError` wrapping `last_exception` after all attempts. -/
inductive RetryResult
  | success (status : Nat) (body : Body)
  | terminalStatus (status : Nat) (body : Body)
  | exhausted (last : Option Failure)
deriving Repr, DecidableEq

/-- One loop iteration's classification (government_api.py 300-313):
    `response.raise_for_status()` raises for any status ≥ 400; a 4xx other
    than 429 is re-raised immediately, other HTTP errors and
    `RequestError`/`TimeoutException` become `last_exception`. -/
def attemptStep (o : ReqOutcome) : Sum RetryResult Failure :=
  match o with
  | .response st body =>
      if 400 ≤ st then
        if st < 500 && st ≠ 429 then .inl (.terminalStatus st body)
        else .inr (.httpStatus st body)
      else .inl (.success st body)
  | .requestError => .inr .requestError
  | .timeoutError => .inr .timeoutError

/-- The trace of a `_make_request_with_retry` run: its result, the backoff
    sleeps performed (in order), and the number of HTTP requests issued. -/
structure RetryTrace where
  result : RetryResult
  sleeps : List Nat
  requests : Nat
deriving Repr, DecidableEq

/-- `for attempt in range(retry_attempts)` from iteration `attempt` on, with
    `remaining = retry_attempts - attempt` iterations left and `last` the
    current `last_exception` (government_api.py 297-331).  After a retryable
    failure the loop sleeps `2 ** attempt` iff `attempt < retry_attempts - 1`. -/
def retryFrom (outcomes : Nat → ReqOutcome) (retry_attempts : Nat) :
    Nat → Nat → Option Failure → RetryTrace
  | 0, _, last => ⟨.exhausted last, [], 0⟩
  | remaining + 1, attempt, _last =>
      match attemptStep (outcomes attempt) with
      | .inl r => ⟨r, [], 1⟩
      | .inr f =>
          let tr := retryFrom outcomes retry_attempts remaining (attempt + 1) (some f)
          if attempt < retry_attempts - 1 then
            ⟨tr.result, 2 ^ attempt :: tr.sleeps, tr.requests + 1⟩
          else
            ⟨tr.result, tr.sleeps, tr.requests + 1⟩

/-- `GovernmentAPIClient._make_request_with_retry` (government_api.py
    274-331), given the configured `retry_attempts` and the sequence of
    request outcomes. -/
def make_request_with_retry (outcomes : Nat → ReqOutcome)
    (retry_attempts : Nat) : RetryTrace :=
  retryFrom outcomes retry_attempts retry_attempts 0 none

/-- `str(data.get(key, "0"))` on a decoded JSON body. -/
def jsonGetD (kvs : List (String × String)) (k : String) : String :=
  ((kvs.find? (fun p => p.1 = k)).map (·.2)).getD "0"

/-- `GovernmentAPIClient.calculate_ibs_cbs` (government_api.py 51-150): on a
    returned response, decodes the body and builds
    `TaxDetails(ibs_base=base_value, ibs_rate=..., ibs_value=..., cbs_base=
    base_value, cbs_rate=..., cbs_value=...)` from the payload's values; any
    failure (retry exhaustion, terminal status, malformed body, unparsable
    decimal, pydantic validation) surfaces as `GovernmentAPIError`. -/
def calculate_ibs_cbs (outcomes : Nat → ReqOutcome) (retry_attempts : Nat)
    (base_value : Dec) : Except String TaxDetails :=
  match (make_request_with_retry outcomes retry_attempts).result with
  | .success _ body => do
      let kvs ← match body with
        | .malformed => Except.error "GovernmentAPIError: json decode"
        | .fields kvs => Except.ok kvs
      let ibs_rate ← oEx (parseDec? (jsonGetD kvs "aliquotaIBS"))
        "GovernmentAPIError: Decimal()"
      let ibs_value ← oEx (parseDec? (jsonGetD kvs "valorIBS"))
        "GovernmentAPIError: Decimal()"
      let cbs_rate ← oEx (parseDec? (jsonGetD kvs "aliquotaCBS"))
        "GovernmentAPIError: Decimal()"
      let cbs_value ← oEx (parseDec? (jsonGetD kvs "valorCBS"))
        "GovernmentAPIError: Decimal()"
      mkTaxDetails base_value ibs_rate ibs_value base_value cbs_rate cbs_value
        0 0 0 0
  | .terminalStatus _ _ => .error "GovernmentAPIError: HTTPStatusError"
  | .exhausted _ => .error "GovernmentAPIError: retries exhausted"

/-- `GovernmentAPIClient.calculate_selective_tax` (government_api.py 152-215):
    reads `valorImpostoSeletivo` (default `"0"`) from the response; the
    `except Exception` handler turns every failure — request errors, retry
    exhaustion, terminal status, malformed body, unparsable decimal — into a
    returned `Decimal("0")`. -/
def calculate_selective_tax (outcomes : Nat → ReqOutcome)
    (retry_attempts : Nat) : Dec :=
  match (make_request_with_retry outcomes retry_attempts).result with
  | .success _ body =>
      match body with
      | .malformed => 0
      | .fields kvs =>
          match parseDec? (jsonGetD kvs "valorImpostoSeletivo") with
          | some v => v
          | none => 0
  | .terminalStatus _ _ => 0
  | .exhausted _ => 0

/-! ## Claim-side definitions -/

/-- Whether an `Except` value is a success. -/
def isOkE {α : Type} : Except String α → Bool
  | .ok _ => true
  | .error _ => false

/-- An outcome the retry loop records and retries: a network error, a timeout,
    or an HTTP status that is 429 or in the 5xx range. -/
def retryableOutcome (o : ReqOutcome) : Bool :=
  match o with
  | .response st _ => 400 ≤ st && (st = 429 || 500 ≤ st)
  | .requestError => true
  | .timeoutError => true

/-- The `last_exception` value a (retryable) outcome is recorded as. -/
def recordedFailure (o : ReqOutcome) : Failure :=
  match o with
  | .response st body => .httpStatus st body
  | .requestError => .requestError
  | .timeoutError => .timeoutError

/-- A failing run of the Selective-Tax call: the request loop did not return a
    response, or the response body is malformed, or its
    `valorImpostoSeletivo` value is not a decimal. -/
def selective_tax_failure (outcomes : Nat → ReqOutcome)
    (retry_attempts : Nat) : Bool :=
  match (make_request_with_retry outcomes retry_attempts).result with
  | .success _ .malformed => true
  | .success _ (.fields kvs) =>
      (parseDec? (jsonGetD kvs "valorImpostoSeletivo")).isNone
  | .terminalStatus _ _ => true
  | .exhausted _ => true

/-- The text of the named tax leaf under the document's `ICMSTot` totals node. -/
def getTotalsLeafText (t : XmlElem) (tg : String) : Option String :=
  (findIcmsTot t).bind (fun tot => (findChild tot tg).bind (·.text))

/-- The claim's acceptance predicate for the tax-id validator, stated as the
    specification words it: accept a 14-digit numeric string exactly when its
    last two digits equal the check digits of two modulo-11 passes over its
    first 12 and 13 digits with the two weight vectors (a computed digit ≥ 10
    yields 0), except that one digit repeated 14 times is rejected; reject
    everything else. -/
def cnpj_spec (s : String) : Bool :=
  let l := s.data
  if l.length = 14 && isDigits l then
    if (match l with
        | c :: _ => l = List.replicate 14 c
        | [] => false : Bool) then false
    else
      let ds := l.map digitVal
      let s1 := (List.zipWith (fun d w => d * w) (ds.take 12) weights1).sum
      let dv1 := if 11 - s1 % 11 ≥ 10 then 0 else 11 - s1 % 11
      let s2 := (List.zipWith (fun d w => d * w) (ds.take 13) weights2).sum
      let dv2 := if 11 - s2 % 11 ≥ 10 then 0 else 11 - s2 % 11
      (ds.getD 12 0 = dv1 && ds.getD 13 0 = dv2 : Bool)
  else false

/-! ## Concrete sample documents -/

/-- A leaf element carrying only text. -/
def leafEl (tg txt : String) : XmlElem := .mk tg [] (some txt) .nil

/-- An internal element carrying only children. -/
def nodeEl (tg : String) (cs : List XmlElem) : XmlElem := .mk tg [] none (forestOf cs)

/-- A well-formed 44-digit document key: UF 41 (Paraná), AAMM 2501, a 14-digit
    CNPJ, model 55, series 001, number 000000001, emission type 1, code
    00000001, check digit 7. -/
def sampleKey : String :=
  "41" ++ "2501" ++ "11222333000181" ++ "55" ++ "001" ++ "000000001" ++
  "1" ++ "00000001" ++ "7"

def sampleIde : XmlElem :=
  nodeEl "ide"
    [leafEl "dhEmi" "2025-01-15T10:00:00-03:00", leafEl "serie" "1",
     leafEl "nNF" "123"]

def sampleEmit : XmlElem :=
  nodeEl "emit"
    [leafEl "CNPJ" "11222333000181", leafEl "xNome" "Emitente LTDA",
     nodeEl "enderEmit"
       [leafEl "xLgr" "Rua A", leafEl "nro" "100", leafEl "xMun" "Curitiba",
        leafEl "UF" "PR", leafEl "CEP" "80000000"]]

/-- The emitter subtree with no `CNPJ` element (a CPF-identified party). -/
def sampleEmitCpf : XmlElem :=
  nodeEl "emit"
    [leafEl "CPF" "12345678901", leafEl "xNome" "Emitente Pessoa Física",
     nodeEl "enderEmit"
       [leafEl "xLgr" "Rua A", leafEl "nro" "100", leafEl "xMun" "Curitiba",
        leafEl "UF" "PR", leafEl "CEP" "80000000"]]

def sampleDest : XmlElem :=
  nodeEl "dest"
    [leafEl "CNPJ" "11222333000181", leafEl "xNome" "Destinatário LTDA",
     nodeEl "enderDest"
       [leafEl "xLgr" "Rua B", leafEl "nro" "200", leafEl "xMun" "São Paulo",
        leafEl "UF" "SP", leafEl "CEP" "01000000"]]

/-- A complete line-item node with item number `n`. -/
def sampleDet (n : String) : XmlElem :=
  .mk "det" [("nItem", n)] none (forestOf
    [nodeEl "prod"
      [leafEl "cProd" "P1", leafEl "xProd" "Produto Teste",
       leafEl "NCM" "12345678", leafEl "CFOP" "1234", leafEl "uCom" "UN",
       leafEl "qCom" "1.0000", leafEl "vUnCom" "100.00",
       leafEl "vProd" "100.00"]])

/-- A line-item node with item number `n` and no `prod` subtree. -/
def sampleDetNoProd (n : String) : XmlElem := .mk "det" [("nItem", n)] none .nil

/-- The totals subtree; `vICMS` is deliberately written with three decimal
    places. -/
def sampleTotal : XmlElem :=
  nodeEl "total"
    [nodeEl "ICMSTot"
      [leafEl "vProd" "100.00", leafEl "vNF" "100.00", leafEl "vICMS" "10.500"]]

/-- Assemble a document tree from the given emitter and `det` nodes. -/
def sampleRoot (emit : XmlElem) (dets : List XmlElem) : XmlElem :=
  .mk "NFe" [("xmlns", nfeNamespace)] none (forestOf
    [.mk "infNFe" [("Id", "NFe" ++ sampleKey), ("versao", "4.00")] none
      (forestOf ([sampleIde, emit, sampleDest] ++ dets ++ [sampleTotal]))])

/-- A minimal structurally valid NF-e document with one line item. -/
def sampleXml : XmlElem := sampleRoot sampleEmit [sampleDet "1"]

/-- The same document with a second line item lacking its `prod` subtree. -/
def sampleXmlMissingProd : XmlElem :=
  sampleRoot sampleEmit [sampleDet "1", sampleDetNoProd "2"]

/-- The same document with a CPF-identified (CNPJ-less) emitter. -/
def sampleXmlNoCnpj : XmlElem := sampleRoot sampleEmitCpf [sampleDet "1"]

/-- The recipient subtree with no `CNPJ` element (a CPF-identified party). -/
def sampleDestCpf : XmlElem :=
  nodeEl "dest"
    [leafEl "CPF" "12345678901", leafEl "xNome" "Destinatário Pessoa Física",
     nodeEl "enderDest"
       [leafEl "xLgr" "Rua B", leafEl "nro" "200", leafEl "xMun" "São Paulo",
        leafEl "UF" "SP", leafEl "CEP" "01000000"]]

/-- The sample document with a CPF-identified (CNPJ-less) recipient. -/
def sampleXmlNoCnpjDest : XmlElem :=
  .mk "NFe" [("xmlns", nfeNamespace)] none (forestOf
    [.mk "infNFe" [("Id", "NFe" ++ sampleKey), ("versao", "4.00")] none
      (forestOf ([sampleIde, sampleEmit, sampleDestCpf] ++ [sampleDet "1"] ++
        [sampleTotal]))])

/-- The document `parse_nfe_document sampleXml` produces. -/
def sampleDoc : NFEDocument :=
  { document_key := sampleKey
    series := 1
    number := 123
    issue_date := "2025-01-15T10:00:00-03:00"
    emitter :=
      { cnpj := "11222333000181", trade_name := none,
        address := "Rua A, 100", city := "Curitiba", state := "PR",
        zip_code := "80000000", phone := none, email := none }
    recipient :=
      { cnpj := "11222333000181", trade_name := none,
        address := "Rua B, 200", city := "São Paulo", state := "SP",
        zip_code := "01000000", phone := none, email := none }
    items :=
      [{ item_number := 1, product_code := "P1",
         product_name := "Produto Teste", ncm := "12345678", cfop := "1234",
         unit := "UN", quantity := 1, unit_value := 100, total_value := 100,
         tax_details := TaxDetails.zero }]
    total_products := 100
    total_services := 0
    total_document := 100
    tax_details := TaxDetails.zero
    original_xml := sampleXml
    updated_xml := none }

/-- A response sequence whose successful payload reports `valorIBS = 5`
    alongside `aliquotaIBS = 10`. -/
def c3Outcomes : Nat → ReqOutcome := fun _ =>
  .response 200 (.fields
    [("aliquotaIBS", "10"), ("valorIBS", "5"),
     ("aliquotaCBS", "0"), ("valorCBS", "0")])

/-! ## General lemmas -/

theorem bindE_ok {α β : Type} {x : Except String α} {f : α → Except String β}
    {b : β} (h : x >>= f = .ok b) : ∃ a, x = .ok a ∧ f a = .ok b := by
  cases x with
  | ok a => exact ⟨a, rfl, h⟩
  | error e => simp [Bind.bind, Except.bind] at h

theorem oEx_ok {α : Type} {o : Option α} {m : String} {a : α} :
    oEx o m = .ok a ↔ o = some a := by
  cases o <;> simp [oEx]

theorem ensure_ok {b : Bool} {m : String} {u : Unit} :
    ensure b m = .ok u ↔ b = true := by
  cases b <;> simp [ensure]

theorem calculate_tax_values_v2_eq (v : Dec) (values : List (String × Dec)) :
    calculate_tax_values_v2 v values = v := rfl

theorem mkTaxDetails_ok_elim {a1 a2 a3 a4 a5 a6 a7 a8 a9 a10 : Dec}
    {td : TaxDetails}
    (h : mkTaxDetails a1 a2 a3 a4 a5 a6 a7 a8 a9 a10 = .ok td) :
    td = ⟨a1, a2, a3, a4, a5, a6, a7, a8, a9, a10⟩ := by
  unfold mkTaxDetails at h
  split at h
  · cases h
    rfl
  · cases h

theorem mkCompanyInfo_ok_elim {cnpj : String} {tn : Option String}
    {addr city st zip : String} {ph em : Option String} {ci : CompanyInfo}
    (h : mkCompanyInfo cnpj tn addr city st zip ph em = .ok ci) :
    matchesDigits 14 cnpj = true ∧
    ci = ⟨cnpj, tn, addr, city, st, zip, ph, em⟩ := by
  unfold mkCompanyInfo at h
  split at h
  · rename_i hc
    simp only [Bool.and_eq_true] at hc
    cases h
    exact ⟨hc.1.1, rfl⟩
  · cases h

theorem mkNFEDocument_ok_elim {key : String} {s n : Int} {d : String}
    {em rc : CompanyInfo} {items : List ProductItem} {tp ts td : Dec}
    {tax : TaxDetails} {oxml : XmlElem} {doc : NFEDocument}
    (h : mkNFEDocument key s n d em rc items tp ts td tax oxml = .ok doc) :
    matchesDigits 44 key = true ∧ 0 ≤ tp ∧ 0 ≤ ts ∧ 0 ≤ td ∧
    |td - (tp + ts)| ≤ 1 / 100 ∧
    doc = ⟨key, s, n, d, em, rc, items, tp, ts, td, tax, oxml, none⟩ := by
  unfold mkNFEDocument at h
  split at h
  · rename_i hc
    simp only [Bool.and_eq_true, decide_eq_true_eq] at hc
    cases h
    exact ⟨hc.1.1.1.1, hc.1.1.1.2, hc.1.1.2, hc.1.2, hc.2, rfl⟩
  · cases h

/-- Inversion of a successful parse into its constituent steps. -/
theorem parse_ok_elim {t : XmlElem} {doc : NFEDocument}
    (h : parse_nfe_document t = .ok doc) :
    validate_nfe_structure t = true ∧
    ∃ infNFe idd emitter recipient items totals,
      findDesc t "infNFe" = some infNFe ∧
      validate_document_key
        (strReplace ((getAttr infNFe "Id").getD "") "NFe" "") = true ∧
      extract_identification t = .ok idd ∧
      extract_company_info t "emit" = .ok emitter ∧
      extract_company_info t "dest" = .ok recipient ∧
      extract_items t = .ok items ∧
      extract_totals t = .ok totals ∧
      mkNFEDocument (strReplace ((getAttr infNFe "Id").getD "") "NFe" "")
        idd.1 idd.2.1 idd.2.2 emitter recipient items
        totals.1 totals.2.1 totals.2.2 (extract_tax_details t) t = .ok doc := by
  unfold parse_nfe_document at h
  obtain ⟨u1, hv, h⟩ := bindE_ok h
  rw [ensure_ok] at hv
  obtain ⟨infNFe, hinf, h⟩ := bindE_ok h
  rw [oEx_ok] at hinf
  obtain ⟨u2, hk, h⟩ := bindE_ok h
  rw [ensure_ok] at hk
  obtain ⟨idd, hidd, h⟩ := bindE_ok h
  obtain ⟨emitter, hem, h⟩ := bindE_ok h
  obtain ⟨recipient, hrc, h⟩ := bindE_ok h
  obtain ⟨items, hit, h⟩ := bindE_ok h
  obtain ⟨totals, htot, h⟩ := bindE_ok h
  exact ⟨hv, infNFe, idd, emitter, recipient, items, totals,
    hinf, hk, hidd, hem, hrc, hit, htot, h⟩

/-- Inversion of a successful company extraction: the subtree was located, it
    has a `CNPJ` child whose text became the (pattern-checked) `cnpj` field. -/
theorem extract_company_ok_elim {t : XmlElem} {which : String}
    {ci : CompanyInfo} (h : extract_company_info t which = .ok ci) :
    ∃ company cnpjEl, findDesc t which = some company ∧
      findChild company "CNPJ" = some cnpjEl ∧
      cnpjEl.text = some ci.cnpj ∧ matchesDigits 14 ci.cnpj = true := by
  unfold extract_company_info at h
  obtain ⟨company, hco, h⟩ := bindE_ok h
  rw [oEx_ok] at hco
  obtain ⟨cnpjEl, hce, h⟩ := bindE_ok h
  rw [oEx_ok] at hce
  obtain ⟨ender, hen, h⟩ := bindE_ok h
  obtain ⟨cnpj, hct, h⟩ := bindE_ok h
  rw [oEx_ok] at hct
  obtain ⟨nm, hnm, h⟩ := bindE_ok h
  obtain ⟨xl, hxl, h⟩ := bindE_ok h
  obtain ⟨nr, hnr, h⟩ := bindE_ok h
  obtain ⟨city, hcity, h⟩ := bindE_ok h
  obtain ⟨st, hst, h⟩ := bindE_ok h
  obtain ⟨zp, hzp, h⟩ := bindE_ok h
  obtain ⟨hm, hci⟩ := mkCompanyInfo_ok_elim h
  subst hci
  exact ⟨company, cnpjEl, hco, hce, hct, hm⟩

/-! ## Claim theorems -/

/-- C3 (counterexample): a successful Tax Calculation Client run whose payload
    reports rate 10 and value 5 on base 100 produces a `TaxDetails` whose
    `ibs_value` is 5, not `round(100 * 10 / 100, 2) = 10` — the claim
    `value == round(B * R / 100, 2)` fails on this concretely produced triple. -/
theorem c3_counterexample :
    calculate_ibs_cbs c3Outcomes 3 100 =
      .ok ⟨100, 10, 5, 100, 0, 0, 0, 0, 0, 0⟩ ∧
    ((5 : Dec) = round2 (100 * 10 / 100) → False) := by
  constructor
  · with_unfolding_all decide
  · intro h
    rw [show round2 (100 * 10 / 100) = (10 : Dec) by with_unfolding_all rfl] at h
    exact absurd h (by with_unfolding_all decide)

/-- C3 (amended): every `TaxDetails` the program constructs carries its
    `*_value` fields verbatim from the constructor arguments — the
    `calculate_tax_values` validator, invoked through the pydantic-v2
    compatibility wrapper with empty `**kwargs`, never recomputes them from
    base and rate, and no 2-decimal rounding is applied anywhere. -/
theorem c3_values_pass_through (a1 a2 a3 a4 a5 a6 a7 a8 a9 a10 : Dec)
    (td : TaxDetails)
    (h : mkTaxDetails a1 a2 a3 a4 a5 a6 a7 a8 a9 a10 = .ok td) :
    td.ibs_value = a3 ∧ td.cbs_value = a6 ∧ td.selective_tax_value = a9 := by
  rw [mkTaxDetails_ok_elim h]
  exact ⟨rfl, rfl, rfl⟩

theorem c3_witness :
    mkTaxDetails 100 10 5 100 0 0 0 0 0 0 =
      .ok ⟨100, 10, 5, 100, 0, 0, 0, 0, 0, 0⟩ ∧
    (⟨100, 10, 5, 100, 0, 0, 0, 0, 0, 0⟩ : TaxDetails).ibs_value = 5 :=
  ⟨by with_unfolding_all decide,
   (c3_values_pass_through 100 10 5 100 0 0 0 0 0 0 _
     (by with_unfolding_all decide)).1⟩

/-- C6: whenever the Selective-Tax call fails in any way — the request loop
    ends in a terminal status or retry exhaustion, the response body is
    malformed, or its `valorImpostoSeletivo` is not a decimal — the call
    returns zero (and, being a total function into `Dec`, never raises). -/
theorem c6_selective_tax_zero_fallback (outcomes : Nat → ReqOutcome)
    (retry_attempts : Nat)
    (h : selective_tax_failure outcomes retry_attempts = true) :
    calculate_selective_tax outcomes retry_attempts = 0 := by
  unfold selective_tax_failure at h
  unfold calculate_selective_tax
  cases hr : (make_request_with_retry outcomes retry_attempts).result with
  | success st body =>
      rw [hr] at h
      cases body with
      | malformed => rfl
      | fields kvs =>
          dsimp only
          simp only [Option.isNone_iff_eq_none] at h
          rw [h]
  | terminalStatus st body => rfl
  | exhausted last => rfl

theorem c6_witness :
    selective_tax_failure (fun _ => .requestError) 3 = true ∧
    calculate_selective_tax (fun _ => .requestError) 3 = 0 :=
  ⟨by decide, c6_selective_tax_zero_fallback (fun _ => .requestError) 3 (by decide)⟩

/-- C2 (counterexample): on the sample document, whose totals `vICMS` leaf
    reads `10.500`, the generator's update returns the input tree unchanged:
    the totals leaf is not overwritten and in particular is not re-serialized
    with exactly two decimal places, contradicting the claimed overwrite. -/
theorem c2_counterexample :
    update_nfe_xml sampleDoc = .ok sampleXml ∧
    getTotalsLeafText sampleXml "vICMS" = some "10.500" ∧
    isTwoDecimalString "10.500" = false := by
  refine ⟨by with_unfolding_all rfl, by rfl, by rfl⟩

/-- C2 (amended): the generator's update operation overwrites nothing — both
    the per-item tax update and the document-totals update are unimplemented
    stubs, so every subtree, node identity, attribute order and leaf value of
    the XML tree is returned unchanged (only serialization whitespace can
    differ in the emitted string). -/
theorem c2_update_overwrites_nothing (doc : NFEDocument) (res : XmlElem)
    (h : update_nfe_xml doc = .ok res) : res = doc.original_xml := by
  unfold update_nfe_xml at h
  obtain ⟨logs, hl, h⟩ := bindE_ok h
  cases h
  rfl

theorem c2_witness : sampleXml = sampleDoc.original_xml :=
  c2_update_overwrites_nothing sampleDoc sampleXml (by with_unfolding_all rfl)

/-- C8: every document a successful parse returns satisfies
    `|total_document - (total_products + total_services)| ≤ 0.01`; an input
    violating the tolerance fails `NFEDocument` validation and yields no
    document. -/
theorem c8_total_tolerance (t : XmlElem) (doc : NFEDocument)
    (h : parse_nfe_document t = .ok doc) :
    |doc.total_document - (doc.total_products + doc.total_services)| ≤ 1 / 100 := by
  obtain ⟨-, infNFe, idd, em, rc, items, totals,
    -, -, -, -, -, -, -, hmk⟩ := parse_ok_elim h
  obtain ⟨-, -, -, -, htol, hdoc⟩ := mkNFEDocument_ok_elim hmk
  rw [hdoc]
  exact htol

theorem c8_witness :
    parse_nfe_document sampleXml = .ok sampleDoc ∧
    |sampleDoc.total_document -
      (sampleDoc.total_products + sampleDoc.total_services)| ≤ 1 / 100 :=
  ⟨by with_unfolding_all rfl,
   c8_total_tolerance sampleXml sampleDoc (by with_unfolding_all rfl)⟩

/-- C10: a document whose emitter subtree — or whose recipient subtree —
    carries no `CNPJ` element (for example a CPF-identified party) never
    parses into a document — and every parsed document's parties carry tax
    ids matching `^\d{14}$`, so no parsed document contains a CPF-identified
    (11-digit) party. -/
theorem c10_no_cnpj_rejected :
    (∀ t, ((findDesc t "emit").bind (fun em => findChild em "CNPJ") = none ∨
           (findDesc t "dest").bind (fun de => findChild de "CNPJ") = none) →
      isOkE (parse_nfe_document t) = false) ∧
    (∀ t doc, parse_nfe_document t = .ok doc →
      matchesDigits 14 doc.emitter.cnpj = true ∧
      matchesDigits 14 doc.recipient.cnpj = true) := by
  constructor
  · intro t hnone
    cases hp : parse_nfe_document t with
    | error e => rfl
    | ok doc =>
        obtain ⟨-, infNFe, idd, em, rc, items, totals,
          -, -, -, hem, hrc, -, -, -⟩ := parse_ok_elim hp
        obtain ⟨companyE, cnpjE, hcoE, hceE, -, -⟩ := extract_company_ok_elim hem
        obtain ⟨companyD, cnpjD, hcoD, hceD, -, -⟩ := extract_company_ok_elim hrc
        rcases hnone with hnone | hnone
        · rw [hcoE, Option.some_bind, hceE] at hnone
          cases hnone
        · rw [hcoD, Option.some_bind, hceD] at hnone
          cases hnone
  · intro t doc hp
    obtain ⟨-, infNFe, idd, em, rc, items, totals,
      -, -, -, hem, hrc, -, -, hmk⟩ := parse_ok_elim hp
    obtain ⟨-, -, -, -, -, hdoc⟩ := mkNFEDocument_ok_elim hmk
    obtain ⟨-, -, -, -, -, hm1⟩ := extract_company_ok_elim hem
    obtain ⟨-, -, -, -, -, hm2⟩ := extract_company_ok_elim hrc
    rw [hdoc]
    exact ⟨hm1, hm2⟩

/-- Every `det` a successful item extraction traversed has a parsable `nItem`
    attribute (it is read before the `prod` check, for skipped items too). -/
theorem extract_items_aux_nItem {dets : List XmlElem} {res : List ProductItem}
    (h : extract_items_aux dets = .ok res) :
    ∀ det ∈ dets, ∃ s n, getAttr det "nItem" = some s ∧ parseInt? s = some n := by
  induction dets generalizing res with
  | nil => simp
  | cons det rest ih =>
      rw [extract_items_aux] at h
      obtain ⟨s, hs, h⟩ := bindE_ok h
      rw [oEx_ok] at hs
      obtain ⟨n, hn, h⟩ := bindE_ok h
      rw [oEx_ok] at hn
      intro d hd
      rcases List.mem_cons.mp hd with hd | hd
      · exact hd ▸ ⟨s, n, hs, hn⟩
      · cases hprod : findChild det "prod" with
        | none =>
            rw [hprod] at h
            exact ih h d hd
        | some prod =>
            rw [hprod] at h
            obtain ⟨v1, -, h⟩ := bindE_ok h
            obtain ⟨v2, -, h⟩ := bindE_ok h
            obtain ⟨v3, -, h⟩ := bindE_ok h
            obtain ⟨v4, -, h⟩ := bindE_ok h
            obtain ⟨v5, -, h⟩ := bindE_ok h
            obtain ⟨v6, -, h⟩ := bindE_ok h
            obtain ⟨v7, -, h⟩ := bindE_ok h
            obtain ⟨v8, -, h⟩ := bindE_ok h
            obtain ⟨v9, -, h⟩ := bindE_ok h
            obtain ⟨rest', hrest, -⟩ := bindE_ok h
            exact ih hrest d hd

/-- The generator's item loop succeeds on any `det` list whose `nItem`
    attributes all parse. -/
theorem update_aux_ok {dets : List XmlElem}
    (h : ∀ det ∈ dets, ∃ s n, getAttr det "nItem" = some s ∧ parseInt? s = some n)
    (items' : List ProductItem) :
    ∃ logs, update_items_taxes_aux items' dets = .ok logs := by
  induction dets with
  | nil => exact ⟨[], rfl⟩
  | cons det rest ih =>
      obtain ⟨s, n, hs, hn⟩ := h det (List.mem_cons_self det rest)
      obtain ⟨logs, hlogs⟩ := ih (fun d hd => h d (List.mem_cons_of_mem det hd))
      cases hfind : items'.find? (fun i => i.item_number = n) with
      | none =>
          refine ⟨logs, ?_⟩
          rw [update_items_taxes_aux]
          simp [hs, hn, oEx, Bind.bind, Except.bind, hlogs, hfind]
      | some it =>
          refine ⟨"updating_item_taxes" :: logs, ?_⟩
          rw [update_items_taxes_aux]
          simp [hs, hn, oEx, Bind.bind, Except.bind, hlogs, hfind]

/-- Regenerating from a freshly parsed document returns the original tree. -/
theorem update_roundtrip {t : XmlElem} {doc : NFEDocument}
    (h : parse_nfe_document t = .ok doc) : update_nfe_xml doc = .ok t := by
  obtain ⟨-, infNFe, idd, em, rc, items, totals,
    -, -, -, -, -, hit, -, hmk⟩ := parse_ok_elim h
  obtain ⟨-, -, -, -, -, hdoc⟩ := mkNFEDocument_ok_elim hmk
  have hnitem := extract_items_aux_nItem hit
  subst hdoc
  obtain ⟨logs, hlogs⟩ := update_aux_ok hnitem items
  unfold update_nfe_xml update_items_taxes
  simp [Bind.bind, Except.bind, hlogs]

/-- C1: for every input accepted by the parser, immediately regenerating from
    the unmodified document returns exactly the input's element tree — the
    emitted XML can differ from the input only in serialization whitespace,
    and every tax value (every leaf text) is unchanged. -/
theorem c1_parse_then_update_preserves_tree (t : XmlElem) (doc : NFEDocument)
    (h : parse_nfe_document t = .ok doc) : update_nfe_xml doc = .ok t :=
  update_roundtrip h

theorem c1_witness :
    parse_nfe_document sampleXml = .ok sampleDoc ∧
    update_nfe_xml sampleDoc = .ok sampleXml :=
  ⟨by with_unfolding_all rfl,
   c1_parse_then_update_preserves_tree sampleXml sampleDoc
     (by with_unfolding_all rfl)⟩

/-- C4: a successful `process` run is exactly a parse whose result is extended
    with the regenerated (identical) tree: the returned document keeps the
    parsed tax figures and items untouched, retains the original tree, and
    attaches the regenerated tree as its updated XML.  The definition of
    `process_nfe_document` invokes no Tax Calculation Client. -/
theorem c4_process_taxes_unchanged (t : XmlElem) (doc : NFEDocument)
    (h : process_nfe_document t = .ok doc) :
    ∃ pd, parse_nfe_document t = .ok pd ∧
      doc.tax_details = pd.tax_details ∧ doc.items = pd.items ∧
      doc.total_document = pd.total_document ∧
      doc.original_xml = t ∧ doc.updated_xml = some t := by
  unfold process_nfe_document at h
  obtain ⟨pd, hp, h⟩ := bindE_ok h
  obtain ⟨up, hu, h⟩ := bindE_ok h
  rw [update_roundtrip hp] at hu
  injection hu with hup
  injection h with hdoc2
  obtain ⟨-, infNFe, idd, em, rc, items, totals,
    -, -, -, -, -, -, -, hmk⟩ := parse_ok_elim hp
  obtain ⟨-, -, -, -, -, hdoc⟩ := mkNFEDocument_ok_elim hmk
  refine ⟨pd, hp, ?_, ?_, ?_, ?_, ?_⟩ <;> rw [← hdoc2]
  · show pd.original_xml = t
    rw [hdoc]
  · show some up = some t
    rw [← hup]

theorem c4_witness :
    process_nfe_document sampleXml =
      .ok { sampleDoc with updated_xml := some sampleXml } ∧
    ({ sampleDoc with updated_xml := some sampleXml } : NFEDocument).tax_details
      = sampleDoc.tax_details ∧
    ({ sampleDoc with updated_xml := some sampleXml } : NFEDocument).updated_xml
      = some sampleXml := by
  refine ⟨by with_unfolding_all rfl, ?_, rfl⟩
  obtain ⟨pd, hp, htax, -⟩ := c4_process_taxes_unchanged sampleXml
    { sampleDoc with updated_xml := some sampleXml }
    (by with_unfolding_all rfl)
  have : pd = sampleDoc := by
    rw [show parse_nfe_document sampleXml = .ok sampleDoc
      by with_unfolding_all rfl] at hp
    cases hp
    rfl
  rw [htax, this]

/-- C7 (counterexample): parsing the sample document whose second line item
    lacks its `prod` subtree succeeds with the remaining item intact, but no
    warning is recorded — the skip branch of the effective `_extract_items` is
    a bare `continue`, so the claim's "records a warning for it" fails here. -/
theorem c7_counterexample :
    isOkE (parse_nfe_document sampleXmlMissingProd) = true ∧
    (parse_nfe_document sampleXmlMissingProd).map
      (fun d => d.items.map (fun i => i.item_number)) = .ok [1] ∧
    parse_warnings sampleXmlMissingProd = [] := by
  refine ⟨by with_unfolding_all rfl, by with_unfolding_all rfl, rfl⟩

/-- C7 (amended): a line-item node without a `prod` subtree (and with a
    parsable item number, which is read first) is skipped: item extraction
    returns exactly the items of the remaining nodes, and no warning is
    emitted for any input. -/
theorem c7_skip_without_warning (dets1 : List XmlElem) (det : XmlElem)
    (dets2 : List XmlElem) (s : String) (n : Int)
    (hprod : findChild det "prod" = none)
    (hs : getAttr det "nItem" = some s) (hn : parseInt? s = some n) :
    extract_items_aux (dets1 ++ det :: dets2) =
      extract_items_aux (dets1 ++ dets2) ∧
    extract_items_warnings (dets1 ++ det :: dets2) = [] := by
  refine ⟨?_, rfl⟩
  induction dets1 with
  | nil =>
      simp only [List.nil_append]
      rw [extract_items_aux]
      simp [hs, hn, oEx, Bind.bind, Except.bind, hprod]
  | cons d rest ih =>
      simp only [List.cons_append]
      rw [extract_items_aux, extract_items_aux]
      rw [ih]

theorem c7_witness :
    extract_items_aux ([sampleDet "1"] ++ sampleDetNoProd "2" :: []) =
      extract_items_aux ([sampleDet "1"] ++ []) ∧
    extract_items_warnings ([sampleDet "1"] ++ sampleDetNoProd "2" :: []) = [] :=
  c7_skip_without_warning [sampleDet "1"] (sampleDetNoProd "2") [] "2" 2
    rfl rfl (by decide)

theorem c10_witness :
    isOkE (parse_nfe_document sampleXmlNoCnpj) = false ∧
    isOkE (parse_nfe_document sampleXmlNoCnpjDest) = false ∧
    matchesDigits 14 sampleDoc.emitter.cnpj = true ∧
    matchesDigits 14 sampleDoc.recipient.cnpj = true :=
  ⟨c10_no_cnpj_rejected.1 sampleXmlNoCnpj (Or.inl (by rfl)),
   c10_no_cnpj_rejected.1 sampleXmlNoCnpjDest (Or.inr (by rfl)),
   (c10_no_cnpj_rejected.2 sampleXml sampleDoc (by with_unfolding_all rfl)).1,
   (c10_no_cnpj_rejected.2 sampleXml sampleDoc (by with_unfolding_all rfl)).2⟩

/-- A retryable outcome is recorded as `last_exception`, not returned/raised. -/
theorem attemptStep_retryable {o : ReqOutcome}
    (h : retryableOutcome o = true) :
    attemptStep o = .inr (recordedFailure o) := by
  cases o with
  | response st body =>
      simp only [retryableOutcome, Bool.and_eq_true, Bool.or_eq_true,
        decide_eq_true_eq] at h
      obtain ⟨h4, h5⟩ := h
      simp only [attemptStep, recordedFailure, if_pos h4]
      rcases h5 with h5 | h5
      · simp [h5]
      · have : ¬ (st < 500) := by omega
        simp [this]
  | requestError => rfl
  | timeoutError => rfl

/-- If every attempt fails retryably, the loop exhausts its budget: it issues
    exactly `rem` requests, sleeps `2 ^ attempt` after each non-final attempt,
    and ends with the last attempt's failure as `last_exception`. -/
theorem retryFrom_allfail (outcomes : Nat → ReqOutcome) (R : Nat) :
    ∀ rem att last, att + rem = R → 1 ≤ rem →
    (∀ j, j < rem → retryableOutcome (outcomes (att + j)) = true) →
    retryFrom outcomes R rem att last =
      ⟨.exhausted (some (recordedFailure (outcomes (att + rem - 1)))),
       (List.range' att (rem - 1)).map (fun a => 2 ^ a), rem⟩ := by
  intro rem
  induction rem with
  | zero => intro att last h1 h2; omega
  | succ rem ih =>
      intro att last hsum hone hall
      rw [retryFrom]
      have h0 : retryableOutcome (outcomes att) = true := by
        simpa using hall 0 (Nat.succ_pos rem)
      rw [attemptStep_retryable h0]
      dsimp only
      rcases Nat.eq_zero_or_pos rem with hz | hpos
      · subst hz
        have hcond : ¬ (att < R - 1) := by omega
        simp only [retryFrom, if_neg hcond]
        simp
      · have ihh := ih (att + 1) (some (recordedFailure (outcomes att)))
          (by omega) hpos
          (fun j hj => by
            have := hall (j + 1) (by omega)
            rwa [show att + (j + 1) = att + 1 + j by omega] at this)
        rw [ihh]
        have hcond : att < R - 1 := by omega
        simp only [if_pos hcond]
        have hidx : att + 1 + rem - 1 = att + (rem + 1) - 1 := by omega
        have hrange : (att :: List.range' (att + 1) (rem - 1)) =
            List.range' att (rem + 1 - 1) := by
          have : rem + 1 - 1 = (rem - 1) + 1 := by omega
          rw [this, List.range'_succ]
        rw [hidx, ← hrange, List.map_cons]

/-- If the first `i` attempts fail retryably and attempt `i` stops the loop
    (a returned response or a re-raised terminal 4xx), the loop issues exactly
    `i + 1` requests and has slept `2 ^ attempt` for each failed attempt. -/
theorem retryFrom_firstStop (outcomes : Nat → ReqOutcome) (R : Nat) :
    ∀ i rem att last r, att + rem = R → i < rem →
    (∀ j, j < i → retryableOutcome (outcomes (att + j)) = true) →
    attemptStep (outcomes (att + i)) = .inl r →
    retryFrom outcomes R rem att last =
      ⟨r, (List.range' att i).map (fun a => 2 ^ a), i + 1⟩ := by
  intro i
  induction i with
  | zero =>
      intro rem att last r hsum hlt hpre hstop
      obtain ⟨rem', rfl⟩ := Nat.exists_eq_add_of_lt hlt
      rw [Nat.add_zero] at hstop
      rw [show 0 + rem' + 1 = rem' + 1 by omega, retryFrom, hstop]
      simp [List.range']
  | succ i ih =>
      intro rem att last r hsum hlt hpre hstop
      obtain ⟨rem', rfl⟩ := Nat.exists_eq_add_of_lt hlt
      rw [show i + 1 + rem' + 1 = (i + rem' + 1) + 1 by omega, retryFrom]
      have h0 : retryableOutcome (outcomes att) = true := by
        simpa using hpre 0 (Nat.succ_pos i)
      rw [attemptStep_retryable h0]
      dsimp only
      rw [ih (i + rem' + 1) (att + 1) (some (recordedFailure (outcomes att))) r
        (by omega) (by omega)
        (fun j hj => by
          have := hpre (j + 1) (by omega)
          rwa [show att + (j + 1) = att + 1 + j by omega] at this)
        (by rwa [show att + 1 + i = att + (i + 1) by omega])]
      have hcond : att < R - 1 := by omega
      simp only [if_pos hcond]
      rw [List.range'_succ]
      simp

/-- The loop never issues more requests than its attempt budget. -/
theorem retryFrom_requests_le (outcomes : Nat → ReqOutcome) (R : Nat) :
    ∀ rem att last, (retryFrom outcomes R rem att last).requests ≤ rem := by
  intro rem
  induction rem with
  | zero => intro att last; exact Nat.le_refl 0
  | succ rem ih =>
      intro att last
      rw [retryFrom]
      cases attemptStep (outcomes att) with
      | inl r => exact Nat.succ_le_succ (Nat.zero_le rem)
      | inr f =>
          dsimp only
          split
          · exact Nat.succ_le_succ (ih (att + 1) (some f))
          · exact Nat.succ_le_succ (ih (att + 1) (some f))

/-- C5: the retry loop of the Tax Calculation Client.
    (1) It issues at most the configured number of requests.
    (2) A 4xx status other than 429, reached after retryable failures,
    re-raises immediately: no further attempt, no further backoff.
    (3) A returned response (status < 400) after retryable failures is
    returned, having slept `2 ^ attempt` after each failed attempt.
    (4) If every attempt fails retryably (network error, timeout, 5xx or
    429), the loop sleeps `2 ^ attempt` between attempts and raises a single
    `GovernmentAPIError` wrapping the last attempt's failure. -/
theorem c5_retry_policy :
    (∀ outcomes R,
      (make_request_with_retry outcomes R).requests ≤ R) ∧
    (∀ outcomes R i st body, i < R →
      (∀ j, j < i → retryableOutcome (outcomes j) = true) →
      outcomes i = .response st body → 400 ≤ st → st < 500 → st ≠ 429 →
      make_request_with_retry outcomes R =
        ⟨.terminalStatus st body, (List.range i).map (fun a => 2 ^ a), i + 1⟩) ∧
    (∀ outcomes R i st body, i < R →
      (∀ j, j < i → retryableOutcome (outcomes j) = true) →
      outcomes i = .response st body → st < 400 →
      make_request_with_retry outcomes R =
        ⟨.success st body, (List.range i).map (fun a => 2 ^ a), i + 1⟩) ∧
    (∀ outcomes R, 1 ≤ R →
      (∀ j, j < R → retryableOutcome (outcomes j) = true) →
      make_request_with_retry outcomes R =
        ⟨.exhausted (some (recordedFailure (outcomes (R - 1)))),
         (List.range (R - 1)).map (fun a => 2 ^ a), R⟩) := by
  refine ⟨?_, ?_, ?_, ?_⟩
  · intro outcomes R
    exact retryFrom_requests_le outcomes R R 0 none
  · intro outcomes R i st body hi hpre hresp h4 h5 h429
    have hstop : attemptStep (outcomes (0 + i)) =
        .inl (.terminalStatus st body) := by
      rw [Nat.zero_add, hresp]
      simp only [attemptStep, if_pos h4]
      have hb : (decide (st < 500) && decide (st ≠ 429)) = true := by
        simp [h5, h429]
      rw [if_pos hb]
    have := retryFrom_firstStop outcomes R i R 0 none
      (.terminalStatus st body) (Nat.zero_add R) hi
      (fun j hj => by simpa using hpre j hj) hstop
    rwa [List.range_eq_range']
  · intro outcomes R i st body hi hpre hresp hlt
    have hstop : attemptStep (outcomes (0 + i)) = .inl (.success st body) := by
      rw [Nat.zero_add, hresp]
      simp only [attemptStep]
      rw [if_neg (by omega)]
    have := retryFrom_firstStop outcomes R i R 0 none
      (.success st body) (Nat.zero_add R) hi
      (fun j hj => by simpa using hpre j hj) hstop
    rwa [List.range_eq_range']
  · intro outcomes R hR hall
    have h := retryFrom_allfail outcomes R R 0 none (Nat.zero_add R) hR
      (fun j hj => by simpa using hall j hj)
    rw [Nat.zero_add] at h
    rwa [List.range_eq_range']

theorem c5_witness :
    make_request_with_retry
      (fun j => if j = 0 then .response 500 .malformed
                else .response 400 .malformed) 3 =
      ⟨.terminalStatus 400 .malformed,
       (List.range 1).map (fun a => 2 ^ a), 2⟩ ∧
    make_request_with_retry
      (fun j => if j = 0 then .response 500 .malformed
                else .response 200 (.fields [])) 3 =
      ⟨.success 200 (.fields []),
       (List.range 1).map (fun a => 2 ^ a), 2⟩ ∧
    make_request_with_retry (fun _ => .response 503 .malformed) 3 =
      ⟨.exhausted (some (recordedFailure (.response 503 .malformed))),
       (List.range 2).map (fun a => 2 ^ a), 3⟩ :=
  ⟨c5_retry_policy.2.1 _ 3 1 400 .malformed (by decide) (by decide)
     (by decide) (by decide) (by decide) (by decide),
   c5_retry_policy.2.2.1 _ 3 1 200 (.fields []) (by decide) (by decide)
     (by decide) (by decide),
   c5_retry_policy.2.2.2 (fun _ => .response 503 .malformed) 3 (by decide)
     (by decide)⟩

/-- A CNPJ check digit is always a single digit. -/
theorem cnpjCheckDigit_le_9 (s : Nat) : cnpjCheckDigit s ≤ 9 := by
  unfold cnpjCheckDigit
  split <;> omega

theorem char_eq_digitChar_iff (c : Char) (d : Nat) (hc : isDigitChar c = true)
    (hd : d ≤ 9) : (c = Char.ofNat (48 + d)) ↔ digitVal c = d := by
  constructor
  · intro h
    subst h
    interval_cases d <;> rfl
  · intro h
    have hb : 48 ≤ c.toNat ∧ c.toNat ≤ 57 := by
      simp only [isDigitChar, Bool.and_eq_true, decide_eq_true_eq] at hc
      exact ⟨hc.1, hc.2⟩
    unfold digitVal at h
    have hn : c.toNat = 48 + d := by omega
    apply Char.eq_of_val_eq
    apply UInt32.ext
    rw [show Char.toNat c = c.val.toNat from rfl] at hn
    rw [hn]
    interval_cases d <;> rfl

theorem decide_digit (c : Char) (d : Nat) (hc : isDigitChar c = true)
    (hd : d ≤ 9) :
    decide (c = Char.ofNat (48 + d)) = decide (digitVal c = d) :=
  decide_eq_decide.mpr (char_eq_digitChar_iff c d hc hd)

theorem validate_cnpj_eq_spec_on14 (c0 c1 c2 c3 c4 c5 c6 c7 c8 c9 c10 c11 c12 c13 : Char)
    (hdig : isDigits [c0, c1, c2, c3, c4, c5, c6, c7, c8, c9, c10, c11, c12, c13] = true) :
    validate_cnpj ⟨[c0, c1, c2, c3, c4, c5, c6, c7, c8, c9, c10, c11, c12, c13]⟩ =
    cnpj_spec ⟨[c0, c1, c2, c3, c4, c5, c6, c7, c8, c9, c10, c11, c12, c13]⟩ := by
  have hall : ∀ c ∈ [c0, c1, c2, c3, c4, c5, c6, c7, c8, c9, c10, c11, c12, c13],
      isDigitChar c = true := by
    simpa [isDigits, List.all_eq_true] using hdig
  unfold validate_cnpj cnpj_spec
  have hg1 : ([c0, c1, c2, c3, c4, c5, c6, c7, c8, c9, c10, c11, c12, c13].length = 14
      && strIsDigit ⟨[c0, c1, c2, c3, c4, c5, c6, c7, c8, c9, c10, c11, c12, c13]⟩) = true := by
    simp [strIsDigit, hdig]
  have hg2 : ([c0, c1, c2, c3, c4, c5, c6, c7, c8, c9, c10, c11, c12, c13].length = 14
      && isDigits [c0, c1, c2, c3, c4, c5, c6, c7, c8, c9, c10, c11, c12, c13]) = true := by
    simp [hdig]
  simp only [hg1, hg2, Bool.not_true, String.data]
  simp only [Bool.false_eq_true, if_false, if_true]
  simp only [List.headD_cons]
  by_cases hrep : [c0, c1, c2, c3, c4, c5, c6, c7, c8, c9, c10, c11, c12, c13] =
      List.replicate 14 c0
  · simp [hrep]
  · simp only [if_neg hrep, decide_eq_false hrep, Bool.false_eq_true, if_false]
    have hck : ∀ S : Nat, (if 11 - S % 11 ≥ 10 then 0 else 11 - S % 11) =
        cnpjCheckDigit S := fun S => rfl
    rw [hck, hck]
    have hs1 : (List.zipWith (fun d w => d * w)
        (List.take 12 (List.map digitVal
          [c0, c1, c2, c3, c4, c5, c6, c7, c8, c9, c10, c11, c12, c13])) weights1).sum =
        (List.map (fun i => digitVal
          ([c0, c1, c2, c3, c4, c5, c6, c7, c8, c9, c10, c11, c12, c13].getD i '0') *
          weights1.getD i 0) (List.range 12)).sum := rfl
    have hs2 : (List.zipWith (fun d w => d * w)
        (List.take 13 (List.map digitVal
          [c0, c1, c2, c3, c4, c5, c6, c7, c8, c9, c10, c11, c12, c13])) weights2).sum =
        (List.map (fun i => digitVal
          ([c0, c1, c2, c3, c4, c5, c6, c7, c8, c9, c10, c11, c12, c13].getD i '0') *
          weights2.getD i 0) (List.range 13)).sum := rfl
    rw [hs1, hs2]
    have hdrop : List.drop 12 [c0, c1, c2, c3, c4, c5, c6, c7, c8, c9, c10, c11, c12, c13] =
        [c12, c13] := rfl
    rw [hdrop]
    have hg12 : (List.map digitVal
        [c0, c1, c2, c3, c4, c5, c6, c7, c8, c9, c10, c11, c12, c13]).getD 12 0 =
        digitVal c12 := rfl
    have hg13 : (List.map digitVal
        [c0, c1, c2, c3, c4, c5, c6, c7, c8, c9, c10, c11, c12, c13]).getD 13 0 =
        digitVal c13 := rfl
    rw [hg12, hg13]
    have hpair : ∀ (x y : Char), ([c12, c13] = [x, y]) ↔ (c12 = x ∧ c13 = y) := by
      intro x y
      simp
    rw [decide_eq_decide.mpr (hpair _ _), Bool.decide_and]
    rw [decide_digit c12 _ (hall c12 (by simp)) (cnpjCheckDigit_le_9 _)]
    rw [decide_digit c13 _ (hall c13 (by simp)) (cnpjCheckDigit_le_9 _)]


/-- C9: the tax-id validator accepts exactly the strings the claim describes:
    a 14-digit numeric string whose last two digits equal the check digits of
    the two modulo-11 passes with weight vectors [5,4,3,2,9,8,7,6,5,4,3,2] and
    [6,5,4,3,2,9,8,7,6,5,4,3,2] (a computed digit ≥ 10 becoming 0), except one
    digit repeated 14 times; every other input is rejected. -/
theorem c9_validate_cnpj_matches_spec (s : String) :
    validate_cnpj s = cnpj_spec s := by
  obtain ⟨l⟩ := s
  by_cases hlen : l.length = 14
  case neg =>
    unfold validate_cnpj cnpj_spec
    simp [strIsDigit, hlen]
  case pos =>
  by_cases hdig : isDigits l
  case neg =>
    unfold validate_cnpj cnpj_spec
    simp [strIsDigit, hlen, hdig]
  case pos =>
  rcases l with _ | ⟨c0, l⟩
  · simp at hlen
  rcases l with _ | ⟨c1, l⟩
  · simp at hlen
  rcases l with _ | ⟨c2, l⟩
  · simp at hlen
  rcases l with _ | ⟨c3, l⟩
  · simp at hlen
  rcases l with _ | ⟨c4, l⟩
  · simp at hlen
  rcases l with _ | ⟨c5, l⟩
  · simp at hlen
  rcases l with _ | ⟨c6, l⟩
  · simp at hlen
  rcases l with _ | ⟨c7, l⟩
  · simp at hlen
  rcases l with _ | ⟨c8, l⟩
  · simp at hlen
  rcases l with _ | ⟨c9', l⟩
  · simp at hlen
  rcases l with _ | ⟨c10, l⟩
  · simp at hlen
  rcases l with _ | ⟨c11, l⟩
  · simp at hlen
  rcases l with _ | ⟨c12, l⟩
  · simp at hlen
  rcases l with _ | ⟨c13, l⟩
  · simp at hlen
  rcases l with _ | ⟨c14, l⟩
  swap
  · simp at hlen
  exact validate_cnpj_eq_spec_on14 c0 c1 c2 c3 c4 c5 c6 c7 c8 c9' c10 c11 c12 c13 hdig


end FiscalApi
